import Mathlib

/-!
Verification development for the `wmts-extractor` repository.

The embedded code is the geodetic coordinate and tile addressing subsystem:
`src/aoi.py` (UTM zone resolution, AOI construction), `src/tiler.py`
(`MercatorTiler`, `SlippyTiler`) and the AOI batch loader of
`src/extractor.py`.

Conventions used throughout:
* Python `float` arithmetic on transcendental formulas is embedded as exact
  real (`ℝ`) arithmetic; purely branch/indexing logic on numbers that the
  claims quantify over is embedded over `ℚ` so it stays executable.
* Python `int(x)` is truncation toward zero; `math.ceil`/`math.floor` are
  `Int.ceil`/`Int.floor`.
* Fallible Python code (exceptions) is embedded with `Except String`.
* Calls into external libraries (`pyproj` projections, `shapely` geometry
  operations, `uuid`) are parameters of the embedding (`GeoBackend`),
  since those libraries are not part of this repository.
-/

namespace WmtsSpec

/-- Python `int()` applied to a rational: truncation toward zero
(floor for nonnegative arguments, ceiling for negative ones). -/
def pyTrunc (q : ℚ) : ℤ :=
  if 0 ≤ q then ⌊q⌋ else ⌈q⌉

/-- Python string indexing `s[i]`: nonnegative indices from the front,
negative indices from the back, `IndexError` when out of range. -/
def pyIndex (s : List Char) (i : ℤ) : Except String Char :=
  let j : ℤ := if 0 ≤ i then i else (s.length : ℤ) + i
  if h : 0 ≤ j ∧ j.toNat < s.length then .ok (s.get ⟨j.toNat, h.2⟩)
  else .error "string index out of range"

/-- The 21-character UTM band alphabet literal from `Aoi.get_letter`. -/
def bandAlphabet : List Char := "CDEFGHJKLMNPQRSTUVWXX".toList

namespace Aoi

/-- `Aoi.get_zone` from `src/aoi.py` (lines 164-183).  `lonlat` is an
ordered `(longitude, latitude)` pair; the default branch applies Python
`int()` (truncation) to `(longitude + 180) / 6`. -/
def get_zone (lonlat : ℚ × ℚ) : ℤ :=
  if 56 ≤ lonlat.2 ∧ lonlat.2 < 64 ∧ 3 ≤ lonlat.1 ∧ lonlat.1 < 12 then 32
  else if 72 ≤ lonlat.2 ∧ lonlat.2 < 84 ∧ 0 ≤ lonlat.1 ∧ lonlat.1 < 42 then
    if lonlat.1 < 9 then 31
    else if lonlat.1 < 21 then 33
    else if lonlat.1 < 33 then 35
    else 37
  else pyTrunc ((lonlat.1 + 180) / 6) + 1

/-- `Aoi.get_letter` from `src/aoi.py` (lines 185-193):
`'CDEFGHJKLMNPQRSTUVWXX'[int((lonlat[1] + 80) / 8)]` with Python
indexing semantics (negative indices wrap, out of range raises). -/
def get_letter (lonlat : ℚ × ℚ) : Except String Char :=
  pyIndex bandAlphabet (pyTrunc ((lonlat.2 + 80) / 8))

end Aoi

/-- Specification-side zone formula, following the spec's wording:
`floor((longitude + 180) / 6) + 1` with the Norway and Svalbard
exceptions. -/
def zone_spec (lon lat : ℚ) : ℤ :=
  if 56 ≤ lat ∧ lat < 64 ∧ 3 ≤ lon ∧ lon < 12 then 32
  else if 72 ≤ lat ∧ lat < 84 ∧ 0 ≤ lon ∧ lon < 42 then
    if lon < 9 then 31
    else if lon < 21 then 33
    else if lon < 33 then 35
    else 37
  else ⌊(lon + 180) / 6⌋ + 1

/-- Specification-side band letter: the character at index
`floor((latitude + 80) / 8)` of the band alphabet. -/
def letter_spec (lat : ℚ) : Char :=
  bandAlphabet.getD (⌊(lat + 80) / 8⌋).toNat ' '

/-! AOI construction pipeline (`src/aoi.py`, `src/extractor.py`).
External libraries (`pyproj`, `shapely`, `uuid`) are parameters of the
embedding, collected in `GeoBackend`; the control flow, branch
conditions, arithmetic and ring construction are the repository's. -/

/-- Shapely geometry values, as far as the embedded code inspects them. -/
inductive Geom where
  | point (x y : ℚ)
  | lineString (coords : List (ℚ × ℚ))
  | polygon (ring : List (ℚ × ℚ))
  deriving DecidableEq

/-- Shapely `geom.geom_type`. -/
def Geom.geom_type : Geom → String
  | .point _ _ => "Point"
  | .lineString _ => "LineString"
  | .polygon _ => "Polygon"

/-- A `pyproj` transformer pair bound to one UTM zone
(`proj['geo2utm']`, `proj['utm2geo']` in `get_utm_transformation`). -/
structure Projection where
  geo2utm : ℚ × ℚ → ℚ × ℚ
  utm2geo : ℚ × ℚ → ℚ × ℚ

/-- The external collaborators used by `src/aoi.py`: `pyproj` projection
construction (keyed by zone number and the `south` flag) and the
`shapely` geometry operations, plus the `uuid`-generated default name. -/
structure GeoBackend where
  mkUtm : ℤ → Bool → Projection
  centroidOf : Geom → ℚ × ℚ
  boundsOf : Geom → ℚ × ℚ × ℚ × ℚ
  bufferOp : Geom → ℚ → Geom
  transformOp : (ℚ × ℚ → ℚ × ℚ) → Geom → Geom
  uuidName : String

/-- The configuration record consumed by `Aoi.from_ogr_feature`
(`config.get('name'/'field'/'distance'/'bbox')`); `none` models an
absent key or a stored `None`. -/
structure AoiConfig where
  name : Option String
  field : Option String
  distance : Option ℚ
  bbox : Option Bool
  deriving DecidableEq

/-- The output record of `Aoi.from_ogr_feature`:
`{'name', 'type', 'distance', 'geometry'}`. -/
structure AoiRec where
  name : String
  type : String
  distance : ℚ
  geometry : Geom
  deriving DecidableEq

/-- `Aoi.get_utm_transformation` from `src/aoi.py` (lines 118-141):
resolves zone and band letter (the letter lookup can raise), then builds
the transformer pair, with `south=True` unless `latlon[1] > 0`. -/
def Aoi.get_utm_transformation (b : GeoBackend) (latlon : ℚ × ℚ) :
    Except String Projection :=
  let z := Aoi.get_zone latlon
  match Aoi.get_letter latlon with
  | .error e => .error e
  | .ok _ =>
    if 0 < latlon.2 then .ok (b.mkUtm z false) else .ok (b.mkUtm z true)

/-- `Aoi.get_bounding_box` from `src/aoi.py` (lines 90-116): projects the
centroid, forms the square `[x-d, x+d] × [y-d, y+d]`, reprojects the
bottom-left and top-right corners (`pt0`, `pt1`) and assembles the
closed 5-point ring. -/
def Aoi.get_bounding_box (b : GeoBackend) (centroid : ℚ × ℚ) (distance : ℚ) :
    Except String Geom :=
  match Aoi.get_utm_transformation b centroid with
  | .error e => .error e
  | .ok proj =>
    let xy := proj.geo2utm (centroid.1, centroid.2)
    let x0 := xy.1 - distance
    let y0 := xy.2 - distance
    let x1 := xy.1 + distance
    let y1 := xy.2 + distance
    let pt0 := proj.utm2geo (x0, y0)
    let pt1 := proj.utm2geo (x1, y1)
    .ok (Geom.polygon
      [(pt0.1, pt0.2), (pt1.1, pt0.2), (pt1.1, pt1.2), (pt0.1, pt1.2), (pt0.1, pt0.2)])

/-- The inner `get_buffer_geometry` closure of `Aoi.from_ogr_feature`
(`src/aoi.py` lines 21-54): points always get a bounding box (default
distance 1000); other geometries get the centroid bounding box whenever
`config.get('bbox') is not None`, else the UTM metric buffer (default
distance 10). -/
def Aoi.get_buffer_geometry (b : GeoBackend) (config : AoiConfig) (geom : Geom) :
    Except String (Geom × ℚ) :=
  if Geom.geom_type geom = "Point" then
    let distance := config.distance.getD 1000
    let bd := b.boundsOf geom
    match Aoi.get_bounding_box b (bd.1, bd.2.1) distance with
    | .error e => .error e
    | .ok buffer => .ok (buffer, distance)
  else if config.bbox ≠ none then
    let distance := config.distance.getD 1000
    let c := b.centroidOf geom
    match Aoi.get_bounding_box b (c.1, c.2) distance with
    | .error e => .error e
    | .ok buffer => .ok (buffer, distance)
  else
    let bd := b.boundsOf geom
    match Aoi.get_utm_transformation b (bd.1, bd.2.1) with
    | .error e => .error e
    | .ok proj =>
      let geomUtm := b.transformOp proj.geo2utm geom
      let distance := config.distance.getD 10
      let geomUtm2 := b.bufferOp geomUtm distance
      .ok (b.transformOp proj.utm2geo geomUtm2, distance)

/-- Python whitespace characters (the `\s` class over ASCII text). -/
def pyWhitespace : List Char :=
  [' ', '\t', '\n', '\r', Char.ofNat 11, Char.ofNat 12]

def isPySpace (c : Char) : Bool := pyWhitespace.contains c

/-- Python `str.strip()`. -/
def pyStrip (s : List Char) : List Char :=
  ((s.dropWhile isPySpace).reverse.dropWhile isPySpace).reverse

/-- `temp.encode('ascii', 'ignore').decode('utf-8')`: drop non-ASCII. -/
def asciiIgnore (s : List Char) : List Char :=
  s.filter fun c => c.toNat < 128

/-- Membership in the character class `[\w\-_\. ]` (ASCII input). -/
def keepChar (c : Char) : Bool :=
  c.isAlphanum || c = '_' || c = '-' || c = '.' || c = ' '

/-- `re.sub('[^\w\-_\. ]', ' ', s)`. -/
def subInvalid (s : List Char) : List Char :=
  s.map fun c => if keepChar c then c else ' '

/-- The replacement `re.sub('\s+', '-', s)`: each maximal whitespace run
becomes a single hyphen.  The flag records whether the previous
character was whitespace. -/
def collapseWs : Bool → List Char → List Char
  | _, [] => []
  | prev, c :: cs =>
    if isPySpace c then
      if prev then collapseWs true cs else '-' :: collapseWs true cs
    else c :: collapseWs false cs

/-- The name-refinement pipeline of `Aoi.from_ogr_feature`
(`src/aoi.py` lines 64-71). -/
def sanitizeName (s : String) : String :=
  let t1 := pyStrip (asciiIgnore s.toList)
  let t2 := pyStrip (subInvalid t1)
  String.mk (collapseWs false t2)

/-- An OGR feature after `json.loads(feature.ExportToJson())`: its
geometry member, the `geometry` entry of its property map (both already
parsed into `Geom`; `none` models JSON `null`/absence) and its remaining
string properties. -/
structure Feature where
  geometry : Option Geom
  propGeometry : Option Geom
  properties : List (String × Option String)
  deriving DecidableEq

/-- `Aoi.from_ogr_feature` from `src/aoi.py` (lines 14-88): derive the
name (configured field property, sanitized, else the configured name,
else the uuid default), resolve the geometry from the feature or its
properties, and build the AOI record.  A `null` geometry reaches
`get_buffer_geometry(None)`, whose attribute access raises. -/
def Aoi.from_ogr_feature (b : GeoBackend) (feature : Feature) (config : AoiConfig) :
    Except String AoiRec :=
  let name0 := config.name.getD b.uuidName
  let name :=
    match config.field with
    | none => name0
    | some f =>
      match feature.properties.lookup f with
      | none => name0
      | some none => name0
      | some (some temp) =>
        let t := sanitizeName temp
        if 0 < t.length then t else name0
  let geom :=
    match feature.geometry with
    | some g => some g
    | none => feature.propGeometry
  match geom with
  | none => .error "AttributeError: NoneType has no attribute geom_type"
  | some g =>
    match Aoi.get_buffer_geometry b config g with
    | .error e => .error e
    | .ok bd => .ok ⟨name, Geom.geom_type g, bd.2, bd.1⟩

/-- The feature loop inside `Extractor.get_aois` (`src/extractor.py`
lines 109-113): each feature is converted with `config.name` set to
`aoi-{idx}` and appended; the first exception escapes the loop. -/
def Extractor.runAois (b : GeoBackend) (config : AoiConfig) :
    List Feature → ℕ → Except String (List AoiRec)
  | [], _ => .ok []
  | f :: fs, idx =>
    match Aoi.from_ogr_feature b f
        ⟨some ("aoi-" ++ toString idx), config.field, config.distance, config.bbox⟩ with
    | .error e => .error e
    | .ok a =>
      match Extractor.runAois b config fs (idx + 1) with
      | .error e => .error e
      | .ok rest => .ok (a :: rest)

/-- `Extractor.get_aois` from `src/extractor.py` (lines 93-123): the
whole feature loop sits in one `try`; any exception (including a missing
file, modelled by `ds = none`) is caught by the handler, which prints
and *clears* the accumulated list; the function returns a dataframe only
when the final list is nonempty. -/
def Extractor.get_aois (b : GeoBackend) (config : AoiConfig)
    (ds : Option (List Feature)) : Option (List AoiRec) :=
  let aois : List AoiRec :=
    match ds with
    | none => []
    | some features =>
      match Extractor.runAois b config features 0 with
      | .ok l => l
      | .error _ => []
  if 0 < aois.length then some aois else none

/-- Specification-side bounding box following the claim's wording: all
four corners of the planar square are reprojected to geographic
coordinates and the closed ring BL, BR, TR, TL, BL is returned. -/
def bounding_box_spec (b : GeoBackend) (centroid : ℚ × ℚ) (distance : ℚ) :
    Except String Geom :=
  match Aoi.get_utm_transformation b centroid with
  | .error e => .error e
  | .ok proj =>
    let xy := proj.geo2utm (centroid.1, centroid.2)
    let x0 := xy.1 - distance
    let y0 := xy.2 - distance
    let x1 := xy.1 + distance
    let y1 := xy.2 + distance
    let bl := proj.utm2geo (x0, y0)
    let br := proj.utm2geo (x1, y0)
    let tr := proj.utm2geo (x1, y1)
    let tl := proj.utm2geo (x0, y1)
    .ok (Geom.polygon
      [(bl.1, bl.2), (br.1, br.2), (tr.1, tr.2), (tl.1, tl.2), (bl.1, bl.2)])

/-- The transformer pair that `get_utm_transformation` returns when the
band-letter lookup succeeds: zone from `get_zone`, hemisphere from the
sign of the latitude. -/
def resolvedProjection (b : GeoBackend) (latlon : ℚ × ℚ) : Projection :=
  if 0 < latlon.2 then b.mkUtm (Aoi.get_zone latlon) false
  else b.mkUtm (Aoi.get_zone latlon) true

/-- The ring shape built by the code's `get_bounding_box`: only the
bottom-left and top-right square corners are mapped through `T`; the
second and fourth ring points mix the components of those two images. -/
def ringMixedCorners (T : ℚ × ℚ → ℚ × ℚ) (x0 y0 x1 y1 : ℚ) : Geom :=
  Geom.polygon
    [((T (x0, y0)).1, (T (x0, y0)).2), ((T (x1, y1)).1, (T (x0, y0)).2),
     ((T (x1, y1)).1, (T (x1, y1)).2), ((T (x0, y0)).1, (T (x1, y1)).2),
     ((T (x0, y0)).1, (T (x0, y0)).2)]

/-- The ring shape described by the spec: all four square corners are
mapped through `T`, in the order BL, BR, TR, TL, BL. -/
def ringFourCorners (T : ℚ × ℚ → ℚ × ℚ) (x0 y0 x1 y1 : ℚ) : Geom :=
  Geom.polygon
    [((T (x0, y0)).1, (T (x0, y0)).2), ((T (x1, y0)).1, (T (x1, y0)).2),
     ((T (x1, y1)).1, (T (x1, y1)).2), ((T (x0, y1)).1, (T (x0, y1)).2),
     ((T (x0, y0)).1, (T (x0, y0)).2)]

/-- A transformer pair that is the identity both ways. -/
def idProjection : Projection := ⟨fun p => p, fun p => p⟩

/-- A concrete backend instance with identity transformers. -/
def idBackend : GeoBackend :=
  ⟨fun _ _ => idProjection, fun _ => (0, 0), fun _ => (0, 0, 0, 0),
   fun g _ => g, fun _ g => g, "u0fall"⟩

/-- An (invertible) shear transformer pair: `utm2geo (x, y) = (x+y, y)`,
`geo2utm (a, b) = (a-b, b)`.  The pair satisfies the spec's transformer
contract (exact mutual inverses) but does not act componentwise. -/
def shearProjection : Projection :=
  ⟨fun p => (p.1 - p.2, p.2), fun p => (p.1 + p.2, p.2)⟩

/-- A concrete backend whose transformer pair is the shear. -/
def shearBackend : GeoBackend :=
  ⟨fun _ _ => shearProjection,
   fun _ => (0, 0), fun _ => (0, 0, 0, 0), fun g _ => g, fun _ g => g, "sh3ar0"⟩

/-- A feature holding a point geometry at the origin. -/
def fGood : Feature := ⟨some (Geom.point 0 0), none, []⟩

/-- A feature whose geometry resolves to null (absent in both the
feature body and its property map). -/
def fNull : Feature := ⟨none, none, []⟩

/-- A concrete configuration: no bbox override, buffer distance 5. -/
def cfg0 : AoiConfig := ⟨none, none, some 5, none⟩

/-! Tile pyramid integer logic (`src/tiler.py`).  The quadkey functions
are pure integer/bit arithmetic; tiles are assumed within the documented
range (`0 ≤ tx, ty < 2^zoom`), where Python's int arithmetic agrees with
the ℕ arithmetic used here. -/

/-- One digit of `MercatorTiler.quad_tree` (`src/tiler.py` lines
206-213): 1 if bit `i-1` of `tx` is set, plus 2 if bit `i-1` of the
(already flipped) `ty` is set. -/
def quadDigit (tx ty i : ℕ) : ℕ :=
  (if tx &&& (1 <<< (i - 1)) ≠ 0 then 1 else 0) +
  (if ty &&& (1 <<< (i - 1)) ≠ 0 then 2 else 0)

/-- The `for i in range(zoom, 0, -1)` loop of `quad_tree`, accumulating
`quad_key += str(digit)`. -/
def quadLoop (tx ty : ℕ) : ℕ → String → String
  | 0, acc => acc
  | i + 1, acc => quadLoop tx ty i (acc ++ toString (quadDigit tx ty (i + 1)))

/-- `MercatorTiler.quad_tree` (`src/tiler.py` lines 201-215): flip `ty`
from TMS to Google convention, then emit one base-4 digit per zoom
level, most significant first. -/
def quad_tree (tx ty zoom : ℕ) : String :=
  quadLoop tx (2 ^ zoom - 1 - ty) zoom ""

/-- `MercatorTiler.google_tile` (`src/tiler.py` lines 195-199). -/
def google_tile (tx ty zoom : ℕ) : ℕ × ℕ :=
  (tx, 2 ^ zoom - 1 - ty)

/-- Proof-side view of `quadLoop`: the digit characters appended for bit
positions `i-1` down to `0`, most significant first. -/
def quadDigitChars (tx ty : ℕ) : ℕ → List Char
  | 0 => []
  | i + 1 => (toString (quadDigit tx ty (i + 1))).data ++ quadDigitChars tx ty i

/-- Modelled from the spec: the repository contains no quadkey decoder;
the spec (§3 "QuadKey", §8 "QuadKey bijection") specifies the quadkey as
a base-4 string with one digit per zoom level, most significant first,
whose low bit carries the Google-x bit and whose high bit carries the
Google-y bit.  The decoder folds over the digit characters. -/
def decodeQuadDigits : List Char → ℕ × ℕ → ℕ × ℕ
  | [], g => g
  | c :: cs, g =>
    let d := c.toNat - 48
    decodeQuadDigits cs (2 * g.1 + d % 2, 2 * g.2 + d / 2)

/-- Modelled from the spec: full quadkey decoding given the zoom —
recover the Google tile from the digits, then flip `y` back to the TMS
convention of `quad_tree`'s input. -/
def quadkey_decode (s : String) (zoom : ℕ) : ℕ × ℕ :=
  let g := decodeQuadDigits s.data (0, 0)
  (g.1, 2 ^ zoom - 1 - g.2)

/-! Real-valued tile pyramid mathematics (`src/tiler.py`).  The Python
float formulas (built from `math.pi`, `math.log`, `math.tan`, ...) are
embedded as exact real arithmetic. -/

structure MercatorTiler where
  tileSize : ℝ
  initialResolution : ℝ
  originShift : ℝ

/-- `MercatorTiler.__init__` (`src/tiler.py` lines 102-111):
`initialResolution = 2π·6378137/tileSize`, `originShift = 2π·6378137/2`. -/
noncomputable def MercatorTiler.init (tileSize : ℝ) : MercatorTiler :=
  ⟨tileSize, 2 * Real.pi * 6378137 / tileSize, 2 * Real.pi * 6378137 / 2⟩

/-- The default pyramid, `MercatorTiler()` with `tileSize = 256`. -/
noncomputable def mercator : MercatorTiler := MercatorTiler.init 256

/-- `lat_lon_to_meters` (`src/tiler.py` lines 113-120). -/
noncomputable def MercatorTiler.lat_lon_to_meters (t : MercatorTiler) (lat lon : ℝ) :
    ℝ × ℝ :=
  let mx := lon * t.originShift / 180
  let my0 := Real.log (Real.tan ((90 + lat) * Real.pi / 360)) / (Real.pi / 180)
  (mx, my0 * t.originShift / 180)

/-- `meters_to_lat_lon` (`src/tiler.py` lines 122-129); returns
`(lat, lon)`. -/
noncomputable def MercatorTiler.meters_to_lat_lon (t : MercatorTiler) (mx my : ℝ) :
    ℝ × ℝ :=
  let lon := mx / t.originShift * 180
  let lat0 := my / t.originShift * 180
  (180 / Real.pi * (2 * Real.arctan (Real.exp (lat0 * Real.pi / 180)) - Real.pi / 2), lon)

/-- `Resolution` (`src/tiler.py` lines 182-186). -/
noncomputable def MercatorTiler.Resolution (t : MercatorTiler) (zoom : ℕ) : ℝ :=
  t.initialResolution / 2 ^ zoom

/-- `meters_to_pixels` (`src/tiler.py` lines 139-145). -/
noncomputable def MercatorTiler.meters_to_pixels (t : MercatorTiler) (mx my : ℝ)
    (zoom : ℕ) : ℝ × ℝ :=
  let res := t.Resolution zoom
  ((mx + t.originShift) / res, (my + t.originShift) / res)

/-- `pixels_to_tile` (`src/tiler.py` lines 147-152):
`int(math.ceil(p / tileSize) - 1)` on each axis (`math.ceil` already
yields an integer, so the outer `int()` is the identity). -/
noncomputable def MercatorTiler.pixels_to_tile (t : MercatorTiler) (px py : ℝ) :
    ℤ × ℤ :=
  (⌈px / t.tileSize⌉ - 1, ⌈py / t.tileSize⌉ - 1)

/-- `meters_to_tile` (`src/tiler.py` lines 160-164). -/
noncomputable def MercatorTiler.meters_to_tile (t : MercatorTiler) (mx my : ℝ)
    (zoom : ℕ) : ℤ × ℤ :=
  let p := t.meters_to_pixels mx my zoom
  t.pixels_to_tile p.1 p.2

/-- `lat_lon_to_tile` (`src/tiler.py` lines 217-221). -/
noncomputable def MercatorTiler.lat_lon_to_tile (t : MercatorTiler) (lat lon : ℝ)
    (z : ℕ) : ℤ × ℤ :=
  let m := t.lat_lon_to_meters lat lon
  t.meters_to_tile m.1 m.2 z

/-- The `for i in range(30)` scan of `ZoomForPixelSize` (`src/tiler.py`
lines 188-193), with the number of remaining iterations explicit;
falling off the loop returns `none` (Python's implicit `None`). -/
noncomputable def MercatorTiler.zoomScan (t : MercatorTiler) (pixelSize : ℝ) :
    ℕ → ℕ → Option ℕ
  | _, 0 => none
  | i, n + 1 =>
    if pixelSize > t.Resolution i then some (if i ≠ 0 then i - 1 else 0)
    else t.zoomScan pixelSize (i + 1) n

/-- `ZoomForPixelSize` (`src/tiler.py` lines 188-193). -/
noncomputable def MercatorTiler.ZoomForPixelSize (t : MercatorTiler) (pixelSize : ℝ) :
    Option ℕ :=
  t.zoomScan pixelSize 0 30

structure SlippyTiler where
  tileSize : ℝ

/-- `SlippyTiler.__init__` (`src/tiler.py` lines 236-239). -/
def SlippyTiler.init (tileSize : ℝ) : SlippyTiler := ⟨tileSize⟩

/-- The default slippy pyramid, `SlippyTiler()`. -/
def slippy : SlippyTiler := SlippyTiler.init 256

/-- `num_tiles` (`src/tiler.py` lines 241-242). -/
noncomputable def SlippyTiler.num_tiles (_t : SlippyTiler) (z : ℕ) : ℝ := 2 ^ z

/-- `sec` (`src/tiler.py` lines 244-245). -/
noncomputable def SlippyTiler.sec (_t : SlippyTiler) (x : ℝ) : ℝ := 1 / Real.cos x

/-- `lat_lon_to_relative_xy` (`src/tiler.py` lines 247-250);
`math.radians(lat) = lat·π/180`. -/
noncomputable def SlippyTiler.lat_lon_to_relative_xy (t : SlippyTiler) (lat lon : ℝ) :
    ℝ × ℝ :=
  let x := (lon + 180) / 360
  let y := (1 - Real.log (Real.tan (lat * Real.pi / 180) +
    t.sec (lat * Real.pi / 180)) / Real.pi) / 2
  (x, y)

/-- `lat_lon_to_xy` (`src/tiler.py` lines 252-255). -/
noncomputable def SlippyTiler.lat_lon_to_xy (t : SlippyTiler) (lat lon : ℝ) (z : ℕ) :
    ℝ × ℝ :=
  let n := t.num_tiles z
  let r := t.lat_lon_to_relative_xy lat lon
  (n * r.1, n * r.2)

/-- Python `int()` on a real (truncation toward zero). -/
noncomputable def pyIntR (x : ℝ) : ℤ :=
  if 0 ≤ x then ⌊x⌋ else ⌈x⌉

/-- `SlippyTiler.lat_lon_to_tile` (`src/tiler.py` lines 257-259). -/
noncomputable def SlippyTiler.lat_lon_to_tile (t : SlippyTiler) (lat lon : ℝ) (z : ℕ) :
    ℤ × ℤ :=
  let p := t.lat_lon_to_xy lat lon z
  (pyIntR p.1, pyIntR p.2)

/-! Theorems. -/

/-- C3: for every coordinate with longitude in `[-180, 180)` and latitude
in `[-90, 90]`, `zone_number` equals `floor((longitude + 180) / 6) + 1`,
except that it is forced to 32 in the Norway window
(`56 ≤ lat < 64`, `3 ≤ lon < 12`) and follows the Svalbard table
(31/33/35/37) when `72 ≤ lat < 84` and `0 ≤ lon < 42`. -/
theorem C3_zone_number (lon lat : ℚ) (h1 : -180 ≤ lon) (h2 : lon < 180)
    (h3 : -90 ≤ lat) (h4 : lat ≤ 90) :
    Aoi.get_zone (lon, lat) = zone_spec lon lat := by
  have hq : (0 : ℚ) ≤ (lon + 180) / 6 := by
    have : (0 : ℚ) ≤ lon + 180 := by linarith
    positivity
  simp only [Aoi.get_zone, zone_spec, pyTrunc, hq, if_true, if_pos hq]

/-- C3 witness: the Norway window point `(10, 60)` is in the claim's
domain and gets zone 32 (the default formula would give 32↛31). -/
theorem C3_zone_number_witness :
    Aoi.get_zone (10, 60) = zone_spec 10 60 ∧ zone_spec 10 60 = 32 :=
  ⟨C3_zone_number 10 60 (by norm_num) (by norm_num) (by norm_num) (by norm_num),
   by decide⟩

theorem pyIndex_ok_of_nonneg (s : List Char) (i : ℤ) (h0 : 0 ≤ i)
    (h1 : i.toNat < s.length) :
    pyIndex s i = .ok (s.getD i.toNat ' ') := by
  simp only [pyIndex, if_pos h0]
  rw [dif_pos ⟨h0, h1⟩, List.getD_eq_getElem _ _ h1, List.get_eq_getElem]

/-- C4 (amended): for latitude in `[-80, 84]` the band letter is the
character at index `floor((latitude + 80) / 8)` of the 21-character band
alphabet; but latitudes outside `[-80, 84]` are NOT all errors:
latitudes in `(84, 88)` silently yield `'X'`, latitudes in `(-88, -80)`
silently yield `'C'`, latitudes in `[-90, -88]` silently yield `'X'`
(Python negative indexing), and only latitudes in `[88, 90]` raise an
index error. -/
theorem C4_zone_letter (lon lat : ℚ) (hlo : -90 ≤ lat) (hhi : lat ≤ 90) :
    (-80 ≤ lat → lat ≤ 84 → Aoi.get_letter (lon, lat) = .ok (letter_spec lat)) ∧
    (84 < lat → lat < 88 → Aoi.get_letter (lon, lat) = .ok 'X') ∧
    (-88 < lat → lat < -80 → Aoi.get_letter (lon, lat) = .ok 'C') ∧
    (lat ≤ -88 → Aoi.get_letter (lon, lat) = .ok 'X') ∧
    (88 ≤ lat → Aoi.get_letter (lon, lat) = .error "string index out of range") := by
  refine ⟨?_, ?_, ?_, ?_, ?_⟩
  · intro ha hb
    have hq0 : (0 : ℚ) ≤ (lat + 80) / 8 := div_nonneg (by linarith) (by norm_num)
    have htr : pyTrunc ((lat + 80) / 8) = ⌊(lat + 80) / 8⌋ := by
      simp [pyTrunc, hq0]
    have hf0 : 0 ≤ ⌊(lat + 80) / 8⌋ := Int.floor_nonneg.mpr hq0
    have hf21 : ⌊(lat + 80) / 8⌋ < 21 := by
      apply Int.floor_lt.mpr
      push_cast
      linarith
    have hlen : (⌊(lat + 80) / 8⌋).toNat < bandAlphabet.length := by
      have hl : bandAlphabet.length = 21 := by decide
      omega
    rw [Aoi.get_letter, htr, pyIndex_ok_of_nonneg _ _ hf0 hlen, letter_spec]
  · intro ha hb
    have hq0 : (0 : ℚ) ≤ (lat + 80) / 8 := div_nonneg (by linarith) (by norm_num)
    have hfl : pyTrunc ((lat + 80) / 8) = 20 := by
      rw [pyTrunc, if_pos hq0, Int.floor_eq_iff]
      push_cast
      constructor <;> linarith
    rw [Aoi.get_letter, hfl]; rfl
  · intro ha hb
    have hqn : ¬ (0 : ℚ) ≤ (lat + 80) / 8 := by
      rw [not_le]
      apply div_neg_of_neg_of_pos (by linarith) (by norm_num)
    have hfl : pyTrunc ((lat + 80) / 8) = 0 := by
      rw [pyTrunc, if_neg hqn, Int.ceil_eq_iff]
      push_cast
      constructor <;> linarith
    rw [Aoi.get_letter, hfl]; rfl
  · intro ha
    have hqn : ¬ (0 : ℚ) ≤ (lat + 80) / 8 := by
      rw [not_le]
      apply div_neg_of_neg_of_pos (by linarith) (by norm_num)
    have hfl : pyTrunc ((lat + 80) / 8) = -1 := by
      rw [pyTrunc, if_neg hqn, Int.ceil_eq_iff]
      push_cast
      constructor <;> linarith
    rw [Aoi.get_letter, hfl]; rfl
  · intro ha
    have hq0 : (0 : ℚ) ≤ (lat + 80) / 8 := div_nonneg (by linarith) (by norm_num)
    have hfl : pyTrunc ((lat + 80) / 8) = 21 := by
      rw [pyTrunc, if_pos hq0, Int.floor_eq_iff]
      push_cast
      constructor <;> linarith
    rw [Aoi.get_letter, hfl]; rfl

/-- C4 counterexample: latitude 85 lies outside `[-80, 84]`, yet
`get_letter` silently returns `'X'` instead of failing. -/
theorem C4_zone_letter_counterexample :
    Aoi.get_letter (0, 85) = .ok 'X' ∧ ¬((85 : ℚ) ≤ 84) := by
  constructor
  · show pyIndex bandAlphabet (pyTrunc ((85 + 80) / 8)) = .ok 'X'
    have h : pyTrunc (((85 : ℚ) + 80) / 8) = 20 := by
      rw [pyTrunc, if_pos (by norm_num), Int.floor_eq_iff] <;> norm_num
    rw [h]
    rfl
  · norm_num

/-- C4 witness: `zone_letter((0, 0)) = 'N'`. -/
theorem C4_zone_letter_witness :
    Aoi.get_letter (0, 0) = .ok (letter_spec 0) ∧ letter_spec 0 = 'N' := by
  refine ⟨(C4_zone_letter 0 0 (by norm_num) (by norm_num)).1 (by norm_num) (by norm_num), ?_⟩
  have h : ⌊(((0 : ℚ) + 80) / 8)⌋ = 10 := by
    rw [Int.floor_eq_iff] <;> norm_num
  rw [letter_spec, h]
  rfl

theorem get_zone_eval_00 : Aoi.get_zone (0, 0) = 31 := by
  have h : pyTrunc (((0 : ℚ) + 180) / 6) = 30 := by
    rw [pyTrunc, if_pos (by norm_num), Int.floor_eq_iff] <;> norm_num
  rw [Aoi.get_zone, if_neg (by norm_num), if_neg (by norm_num)]
  rw [show ((0, 0) : ℚ × ℚ).1 = 0 from rfl, h]
  norm_num

theorem get_letter_eval_00 : Aoi.get_letter (0, 0) = .ok 'N' := by
  show pyIndex bandAlphabet (pyTrunc ((0 + 80) / 8)) = .ok 'N'
  have h : pyTrunc (((0 : ℚ) + 80) / 8) = 10 := by
    rw [pyTrunc, if_pos (by norm_num), Int.floor_eq_iff] <;> norm_num
  rw [h]
  rfl

theorem get_utm_eq_of_letter_ok (b : GeoBackend) (latlon : ℚ × ℚ) (c : Char)
    (hc : Aoi.get_letter latlon = .ok c) :
    Aoi.get_utm_transformation b latlon = .ok (resolvedProjection b latlon) := by
  unfold Aoi.get_utm_transformation
  rewrite [hc]
  show (if 0 < latlon.2 then Except.ok (b.mkUtm (Aoi.get_zone latlon) false)
        else .ok (b.mkUtm (Aoi.get_zone latlon) true)) = _
  unfold resolvedProjection
  by_cases hpos : 0 < latlon.2
  · rewrite [if_pos hpos, if_pos hpos]; rfl
  · rewrite [if_neg hpos, if_neg hpos]; rfl

theorem get_utm_eval_00 (b : GeoBackend) :
    Aoi.get_utm_transformation b (0, 0) = .ok (b.mkUtm 31 true) := by
  rewrite [get_utm_eq_of_letter_ok b (0, 0) 'N' get_letter_eval_00]
  unfold resolvedProjection
  rewrite [if_neg (show ¬((0 : ℚ) < ((0, 0) : ℚ × ℚ).2) by norm_num)]
  rewrite [get_zone_eval_00]
  rfl

theorem get_bounding_box_eq_of_utm_ok (b : GeoBackend) (centroid : ℚ × ℚ)
    (distance : ℚ) (proj : Projection)
    (hp : Aoi.get_utm_transformation b centroid = .ok proj) :
    Aoi.get_bounding_box b centroid distance =
      .ok (ringMixedCorners proj.utm2geo
        ((proj.geo2utm (centroid.1, centroid.2)).1 - distance)
        ((proj.geo2utm (centroid.1, centroid.2)).2 - distance)
        ((proj.geo2utm (centroid.1, centroid.2)).1 + distance)
        ((proj.geo2utm (centroid.1, centroid.2)).2 + distance)) := by
  unfold Aoi.get_bounding_box
  rewrite [hp]
  rfl

theorem bounding_box_spec_eq_of_utm_ok (b : GeoBackend) (centroid : ℚ × ℚ)
    (distance : ℚ) (proj : Projection)
    (hp : Aoi.get_utm_transformation b centroid = .ok proj) :
    bounding_box_spec b centroid distance =
      .ok (ringFourCorners proj.utm2geo
        ((proj.geo2utm (centroid.1, centroid.2)).1 - distance)
        ((proj.geo2utm (centroid.1, centroid.2)).2 - distance)
        ((proj.geo2utm (centroid.1, centroid.2)).1 + distance)
        ((proj.geo2utm (centroid.1, centroid.2)).2 + distance)) := by
  unfold bounding_box_spec
  rewrite [hp]
  rfl

/-- C9: for every LineString or Polygon feature geometry, the centroid
bounding-box override path (default distance 1000) is taken whenever the
`bbox` key holds any non-`None` value — including the boolean `false` —
and the metric-buffer path (default distance 10) is taken exactly when
`bbox` is absent or `None`; the override is not conditioned on the
boolean being true. -/
theorem C9_bbox_override (b : GeoBackend) (cfg : AoiConfig) (g : Geom)
    (h : Geom.geom_type g ≠ "Point") :
    (∀ bv : Bool,
      Aoi.get_buffer_geometry b ⟨cfg.name, cfg.field, cfg.distance, some bv⟩ g =
        match Aoi.get_bounding_box b ((b.centroidOf g).1, (b.centroidOf g).2)
            (cfg.distance.getD 1000) with
        | .error e => .error e
        | .ok buffer => .ok (buffer, cfg.distance.getD 1000)) ∧
    (Aoi.get_buffer_geometry b ⟨cfg.name, cfg.field, cfg.distance, none⟩ g =
      match Aoi.get_utm_transformation b ((b.boundsOf g).1, (b.boundsOf g).2.1) with
      | .error e => .error e
      | .ok proj =>
        .ok (b.transformOp proj.utm2geo
              (b.bufferOp (b.transformOp proj.geo2utm g) (cfg.distance.getD 10)),
            cfg.distance.getD 10)) := by
  constructor
  · intro bv
    rw [Aoi.get_buffer_geometry, if_neg h, if_pos (by simp)]
  · rw [Aoi.get_buffer_geometry, if_neg h, if_neg (by simp)]

/-- C9 witness: with `bbox = some false` a LineString takes exactly the
same override path as with `bbox = some true` — the boolean's value is
irrelevant, only its presence matters. -/
theorem C9_bbox_override_witness :
    Aoi.get_buffer_geometry idBackend ⟨none, none, none, some false⟩ (Geom.lineString []) =
      Aoi.get_buffer_geometry idBackend ⟨none, none, none, some true⟩ (Geom.lineString []) := by
  rw [(C9_bbox_override idBackend ⟨none, none, none, none⟩ (Geom.lineString [])
        (by decide)).1 false,
      (C9_bbox_override idBackend ⟨none, none, none, none⟩ (Geom.lineString [])
        (by decide)).1 true]

/-- C7 counterexample: with a transformer pair that is a mutual-inverse
shear (so not componentwise), the ring built by `get_bounding_box`
differs from the spec's "reproject the four corners" ring: the code
mixes the components of the two reprojected corners instead of
reprojecting the bottom-right and top-left corners. -/
theorem C7_bounding_box_counterexample :
    Aoi.get_bounding_box shearBackend (0, 0) 1 ≠
      bounding_box_spec shearBackend (0, 0) 1 ∧ (0 : ℚ) < 1 := by
  have hpr : Aoi.get_utm_transformation shearBackend (0, 0) = .ok shearProjection := by
    rewrite [get_utm_eval_00]
    rfl
  have h1 := get_bounding_box_eq_of_utm_ok shearBackend (0, 0) 1 shearProjection hpr
  have h2 := bounding_box_spec_eq_of_utm_ok shearBackend (0, 0) 1 shearProjection hpr
  refine ⟨?_, by norm_num⟩
  rw [h1, h2]
  simp only [ringMixedCorners, ringFourCorners, shearProjection, ne_eq,
    Except.ok.injEq, Geom.polygon.injEq, List.cons.injEq, Prod.mk.injEq]
  norm_num

/-- C7 (amended): for every centroid whose band letter resolves and
every distance `d > 0`, `bounding_box` resolves the zone and hemisphere
from the centroid (`resolvedProjection`), projects the centroid to
planar coordinates `(x, y)`, forms the square `[x-d, x+d] × [y-d, y+d]`,
reprojects only the bottom-left and top-right corners, and returns the
closed 5-point ring ordered BL, BR, TR, TL, BL in which the bottom-right
and top-left points combine the coordinates of the two reprojected
corners (`ringMixedCorners`) rather than being reprojections of the
remaining two square corners. -/
theorem C7_bounding_box (b : GeoBackend) (centroid : ℚ × ℚ) (distance : ℚ)
    (hd : 0 < distance) (hok : ∃ c, Aoi.get_letter centroid = .ok c) :
    Aoi.get_bounding_box b centroid distance =
      .ok (ringMixedCorners (resolvedProjection b centroid).utm2geo
        (((resolvedProjection b centroid).geo2utm (centroid.1, centroid.2)).1 - distance)
        (((resolvedProjection b centroid).geo2utm (centroid.1, centroid.2)).2 - distance)
        (((resolvedProjection b centroid).geo2utm (centroid.1, centroid.2)).1 + distance)
        (((resolvedProjection b centroid).geo2utm (centroid.1, centroid.2)).2 + distance)) := by
  obtain ⟨c, hc⟩ := hok
  exact get_bounding_box_eq_of_utm_ok b centroid distance _
    (get_utm_eq_of_letter_ok b centroid c hc)

theorem from_ogr_feature_null (b : GeoBackend) (f : Feature) (config : AoiConfig)
    (h1 : f.geometry = none) (h2 : f.propGeometry = none) :
    Aoi.from_ogr_feature b f config =
      .error "AttributeError: NoneType has no attribute geom_type" := by
  unfold Aoi.from_ogr_feature
  rewrite [h1, h2]
  rfl

theorem runAois_error_of_null (b : GeoBackend) (config : AoiConfig) :
    ∀ (fs : List Feature) (idx : ℕ) (f : Feature), f ∈ fs →
      f.geometry = none → f.propGeometry = none →
      ∃ e, Extractor.runAois b config fs idx = .error e := by
  intro fs
  induction fs with
  | nil =>
    intro idx f hmem
    exact absurd hmem (List.not_mem_nil f)
  | cons g gs ih =>
    intro idx f hmem h1 h2
    rcases List.mem_cons.mp hmem with rfl | hm
    · refine ⟨"AttributeError: NoneType has no attribute geom_type", ?_⟩
      unfold Extractor.runAois
      rewrite [from_ogr_feature_null b f _ h1 h2]
      rfl
    · cases hh : Aoi.from_ogr_feature b g
        ⟨some ("aoi-" ++ toString idx), config.field, config.distance, config.bbox⟩ with
      | error e =>
        refine ⟨e, ?_⟩
        unfold Extractor.runAois
        rewrite [hh]
        rfl
      | ok a =>
        obtain ⟨e, he⟩ := ih (idx + 1) f hm h1 h2
        refine ⟨e, ?_⟩
        unfold Extractor.runAois
        rewrite [hh, he]
        rfl

theorem get_aois_some_eq (b : GeoBackend) (config : AoiConfig) (fs : List Feature) :
    Extractor.get_aois b config (some fs) =
      (if 0 < (match Extractor.runAois b config fs 0 with
               | .ok l => l
               | .error _ => ([] : List AoiRec)).length then
        some (match Extractor.runAois b config fs 0 with
              | .ok l => l
              | .error _ => ([] : List AoiRec))
      else none) := rfl

/-- C1 (amended): a feature whose geometry resolves to null raises out
of `from_ogr_feature`; the batch-level handler in `get_aois` catches the
exception and clears the whole accumulated list, so `get_aois` returns
`none`: one null-geometry feature discards every feature's AOI instead
of being skipped with an error recorded against its index. -/
theorem C1_null_geometry_aborts_batch (b : GeoBackend) (config : AoiConfig)
    (fs : List Feature) (f : Feature) (hmem : f ∈ fs)
    (h1 : f.geometry = none) (h2 : f.propGeometry = none) :
    Extractor.get_aois b config (some fs) = none := by
  obtain ⟨e, he⟩ := runAois_error_of_null b config fs 0 f hmem h1 h2
  rewrite [get_aois_some_eq, he]
  rfl

/-- C1 counterexample: a batch of two features, the second with a null
geometry.  The claim predicts the first feature's AOI still appears in
the output; in fact `get_aois` returns `none`, although the first
feature alone produces an AOI. -/
theorem C1_null_geometry_counterexample :
    Extractor.get_aois idBackend cfg0 (some [fGood, fNull]) = none ∧
    Extractor.get_aois idBackend cfg0 (some [fGood]) =
      some [⟨"aoi-0", "Point", 5,
        Geom.polygon [(-5, -5), (5, -5), (5, 5), (-5, 5), (-5, -5)]⟩] := by
  have hpid : Aoi.get_utm_transformation idBackend (0, 0) = .ok idProjection := by
    rewrite [get_utm_eval_00]
    rfl
  have hbb5 : Aoi.get_bounding_box idBackend (0, 0) 5 =
      .ok (Geom.polygon [(-5, -5), (5, -5), (5, 5), (-5, 5), (-5, -5)]) := by
    rewrite [get_bounding_box_eq_of_utm_ok idBackend (0, 0) 5 idProjection hpid]
    simp only [ringMixedCorners, idProjection]
    norm_num
  have hgb : Aoi.get_buffer_geometry idBackend ⟨some "aoi-0", none, some 5, none⟩
      (Geom.point 0 0) =
      .ok (Geom.polygon [(-5, -5), (5, -5), (5, 5), (-5, 5), (-5, -5)], 5) := by
    unfold Aoi.get_buffer_geometry
    rewrite [if_pos (show Geom.geom_type (Geom.point 0 0) = "Point" from rfl)]
    show (match Aoi.get_bounding_box idBackend (0, 0) 5 with
          | Except.error e => (Except.error e : Except String (Geom × ℚ))
          | Except.ok buffer => Except.ok (buffer, (5 : ℚ))) = _
    rewrite [hbb5]
    rfl
  have hfe : Aoi.from_ogr_feature idBackend fGood ⟨some "aoi-0", none, some 5, none⟩ =
      .ok ⟨"aoi-0", "Point", 5,
        Geom.polygon [(-5, -5), (5, -5), (5, 5), (-5, 5), (-5, -5)]⟩ := by
    unfold Aoi.from_ogr_feature
    show (match Aoi.get_buffer_geometry idBackend ⟨some "aoi-0", none, some 5, none⟩
            (Geom.point 0 0) with
          | Except.error e => (Except.error e : Except String AoiRec)
          | Except.ok bd =>
            Except.ok (⟨"aoi-0", Geom.geom_type (Geom.point 0 0), bd.2, bd.1⟩ : AoiRec)) = _
    rewrite [hgb]
    rfl
  have hrun : Extractor.runAois idBackend cfg0 [fGood] 0 =
      .ok [⟨"aoi-0", "Point", 5,
        Geom.polygon [(-5, -5), (5, -5), (5, 5), (-5, 5), (-5, -5)]⟩] := by
    unfold Extractor.runAois
    rewrite [show (⟨some ("aoi-" ++ toString 0), cfg0.field, cfg0.distance,
        cfg0.bbox⟩ : AoiConfig) = ⟨some "aoi-0", none, some 5, none⟩ from rfl]
    rewrite [hfe]
    rfl
  constructor
  · obtain ⟨e, he⟩ := runAois_error_of_null idBackend cfg0 [fGood, fNull] 0 fNull
      (List.mem_cons_of_mem fGood (List.mem_cons_self fNull [])) rfl rfl
    rewrite [get_aois_some_eq, he]
    rfl
  · rewrite [get_aois_some_eq, hrun]
    rfl

/-- C1 witness: the amended theorem applied to the two-feature batch. -/
theorem C1_null_geometry_witness :
    Extractor.get_aois idBackend cfg0 (some [fGood, fNull]) = none :=
  C1_null_geometry_aborts_batch idBackend cfg0 [fGood, fNull] fNull
    (List.mem_cons_of_mem fGood (List.mem_cons_self fNull [])) rfl rfl

/-- C7 witness: the identity backend at the origin with distance 1. -/
theorem C7_bounding_box_witness :
    Aoi.get_bounding_box idBackend (0, 0) 1 =
      .ok (Geom.polygon [(-1, -1), (1, -1), (1, 1), (-1, 1), (-1, -1)]) := by
  rw [C7_bounding_box idBackend (0, 0) 1 (by norm_num) ⟨'N', get_letter_eval_00⟩]
  have hpr : resolvedProjection idBackend (0, 0) = idProjection := by
    unfold resolvedProjection
    rewrite [if_neg (show ¬((0 : ℚ) < ((0, 0) : ℚ × ℚ).2) by norm_num)]
    rfl
  rw [hpr]
  simp only [ringMixedCorners, idProjection]
  norm_num

theorem quadDigit_eq (tx ty i : ℕ) :
    quadDigit tx ty (i + 1) = tx / 2 ^ i % 2 + 2 * (ty / 2 ^ i % 2) := by
  unfold quadDigit
  rw [Nat.add_sub_cancel, Nat.one_shiftLeft, Nat.and_two_pow, Nat.and_two_pow]
  have h2 : 0 < 2 ^ i := Nat.pos_pow_of_pos i (by norm_num)
  cases htx : tx.testBit i <;> cases hty : ty.testBit i <;>
    rw [Nat.testBit_to_div_mod] at htx hty <;>
    simp only [decide_eq_false_iff_not, decide_eq_true_eq] at htx hty <;>
    simp only [Bool.toNat_false, Bool.toNat_true, zero_mul, one_mul] <;>
    split_ifs <;> omega

theorem quadDigit_lt (tx ty i : ℕ) : quadDigit tx ty i < 4 := by
  unfold quadDigit
  split_ifs <;> norm_num

theorem toString_digit_data :
    ∀ d : ℕ, d < 4 → (toString d).data = [Char.ofNat (48 + d)] := by
  decide

theorem charOfNat_toNat : ∀ d : ℕ, d < 4 → (Char.ofNat (48 + d)).toNat - 48 = d := by
  decide

theorem quadLoop_data (tx ty : ℕ) :
    ∀ (i : ℕ) (acc : String),
      (quadLoop tx ty i acc).data = acc.data ++ quadDigitChars tx ty i := by
  intro i
  induction i with
  | zero => intro acc; simp [quadLoop, quadDigitChars]
  | succ i ih =>
    intro acc
    rw [quadLoop, ih, quadDigitChars, String.data_append, List.append_assoc]

theorem decode_quadDigitChars (tx ty : ℕ) :
    ∀ (i : ℕ) (a b : ℕ),
      decodeQuadDigits (quadDigitChars tx ty i) (a, b) =
        (a * 2 ^ i + tx % 2 ^ i, b * 2 ^ i + ty % 2 ^ i) := by
  intro i
  induction i with
  | zero =>
    intro a b
    simp [quadDigitChars, decodeQuadDigits, Nat.mod_one]
  | succ i ih =>
    intro a b
    rw [quadDigitChars, toString_digit_data _ (quadDigit_lt tx ty (i + 1)),
      List.singleton_append, decodeQuadDigits]
    show decodeQuadDigits (quadDigitChars tx ty i)
      (2 * a + ((Char.ofNat (48 + quadDigit tx ty (i + 1))).toNat - 48) % 2,
       2 * b + ((Char.ofNat (48 + quadDigit tx ty (i + 1))).toNat - 48) / 2) = _
    rw [charOfNat_toNat _ (quadDigit_lt tx ty (i + 1)), quadDigit_eq, ih,
      Nat.mod_pow_succ, Nat.mod_pow_succ]
    have hD2 : (tx / 2 ^ i % 2 + 2 * (ty / 2 ^ i % 2)) % 2 = tx / 2 ^ i % 2 := by omega
    have hDdiv : (tx / 2 ^ i % 2 + 2 * (ty / 2 ^ i % 2)) / 2 = ty / 2 ^ i % 2 := by omega
    rw [hD2, hDdiv, Prod.mk.injEq]
    constructor <;> ring

theorem quadDigitChars_length (tx ty : ℕ) :
    ∀ i, (quadDigitChars tx ty i).length = i := by
  intro i
  induction i with
  | zero => rfl
  | succ i ih =>
    rw [quadDigitChars, toString_digit_data _ (quadDigit_lt tx ty (i + 1))]
    simp [ih]

theorem quadDigitChars_base4 (tx ty : ℕ) :
    ∀ i, ∀ c ∈ quadDigitChars tx ty i, c ∈ ['0', '1', '2', '3'] := by
  intro i
  induction i with
  | zero => intro c hc; simp [quadDigitChars] at hc
  | succ i ih =>
    intro c hc
    rw [quadDigitChars, toString_digit_data _ (quadDigit_lt tx ty (i + 1)),
      List.singleton_append] at hc
    rcases List.mem_cons.mp hc with rfl | h
    · have hd : ∀ d : ℕ, d < 4 → Char.ofNat (48 + d) ∈ ['0', '1', '2', '3'] := by
        decide
      exact hd _ (quadDigit_lt tx ty (i + 1))
    · exact ih c h

/-- C6: for every zoom in `[1, 20]` and every TMS tile `(tx, ty)` with
`0 ≤ tx, ty < 2^zoom`, the quadkey produced by `quad_tree` is a base-4
string of length `zoom` whose decoding (given `zoom`) recovers exactly
the original `(tx, ty)`: the quadkey encoding is a bijection with
Google-convention tile coordinates at that zoom. -/
theorem C6_quadkey_bijection (tx ty zoom : ℕ) (hz1 : 1 ≤ zoom) (hz2 : zoom ≤ 20)
    (hx : tx < 2 ^ zoom) (hy : ty < 2 ^ zoom) :
    (quad_tree tx ty zoom).length = zoom ∧
    (∀ c ∈ (quad_tree tx ty zoom).data, c ∈ ['0', '1', '2', '3']) ∧
    quadkey_decode (quad_tree tx ty zoom) zoom = (tx, ty) := by
  have hdata : (quad_tree tx ty zoom).data =
      quadDigitChars tx (2 ^ zoom - 1 - ty) zoom := by
    rw [quad_tree, quadLoop_data]
    rfl
  refine ⟨?_, ?_, ?_⟩
  · show (quad_tree tx ty zoom).data.length = zoom
    rw [hdata, quadDigitChars_length]
  · intro c hc
    rw [hdata] at hc
    exact quadDigitChars_base4 _ _ zoom c hc
  · have h1 : 0 < 2 ^ zoom := Nat.pos_pow_of_pos zoom (by norm_num)
    rw [quadkey_decode, hdata, decode_quadDigitChars]
    simp only [zero_mul, zero_add]
    rw [Nat.mod_eq_of_lt hx,
      Nat.mod_eq_of_lt (show 2 ^ zoom - 1 - ty < 2 ^ zoom by omega)]
    rw [Prod.mk.injEq]
    exact ⟨rfl, by omega⟩

/-- C6 witness: the TMS tile `(5, 2)` at zoom 3 round-trips through its
quadkey. -/
theorem C6_quadkey_bijection_witness :
    quadkey_decode (quad_tree 5 2 3) 3 = (5, 2) ∧ (quad_tree 5 2 3).length = 3 :=
  ⟨(C6_quadkey_bijection 5 2 3 (by norm_num) (by norm_num) (by norm_num)
      (by norm_num)).2.2,
   (C6_quadkey_bijection 5 2 3 (by norm_num) (by norm_num) (by norm_num)
      (by norm_num)).1⟩

theorem mercator_originShift_eq : mercator.originShift = Real.pi * 6378137 := by
  show 2 * Real.pi * 6378137 / 2 = _
  ring

theorem mercator_originShift_pos : 0 < mercator.originShift := by
  rw [mercator_originShift_eq]
  positivity

/-- C10: for every zoom `z ≥ 0` and every latitude strictly inside the
Mercator domain, `lat_lon_to_tile(lat, -180, z)` returns tile `x = -1`,
outside the documented range `0 ≤ x < 2^z`: the western map edge lands
exactly on pixel `x = 0`, and `pixels_to_tile` assigns a pixel
coordinate lying exactly on a tile boundary to the tile below/left of
the boundary (`pixels_to_tile(n·tileSize, ·)` has `x = n - 1`). -/
theorem C10_west_edge_tile (z : ℕ) (lat : ℝ) (hlat : |lat| < 85.05112878) :
    (mercator.lat_lon_to_tile lat (-180) z).1 = -1 ∧
    (∀ n : ℤ, (mercator.pixels_to_tile ((n : ℝ) * 256) 0).1 = n - 1) := by
  constructor
  · simp only [MercatorTiler.lat_lon_to_tile, MercatorTiler.meters_to_tile,
      MercatorTiler.meters_to_pixels, MercatorTiler.lat_lon_to_meters,
      MercatorTiler.pixels_to_tile]
    have h0 : (-180 : ℝ) * mercator.originShift / 180 + mercator.originShift = 0 := by
      ring
    rw [h0]
    norm_num
  · intro n
    simp only [MercatorTiler.pixels_to_tile]
    have ht : mercator.tileSize = 256 := rfl
    rw [ht]
    rw [show ((n : ℝ) * 256) / 256 = (n : ℝ) by ring]
    rw [Int.ceil_intCast]

/-- C10 witness: the origin latitude. -/
theorem C10_west_edge_tile_witness :
    (mercator.lat_lon_to_tile 0 (-180) 10).1 = -1 :=
  (C10_west_edge_tile 10 0 (by rw [abs_zero]; norm_num)).1

theorem mercator_roundtrip_exact (lat lon : ℝ) (h1 : -90 < lat) (h2 : lat < 90) :
    mercator.meters_to_lat_lon (mercator.lat_lon_to_meters lat lon).1
      (mercator.lat_lon_to_meters lat lon).2 = (lat, lon) := by
  have hpi := Real.pi_pos
  have hS := mercator_originShift_pos
  simp only [MercatorTiler.lat_lon_to_meters, MercatorTiler.meters_to_lat_lon]
  have hθ1 : 0 < (90 + lat) * Real.pi / 360 :=
    div_pos (mul_pos (by linarith) hpi) (by norm_num)
  have hθ2 : (90 + lat) * Real.pi / 360 < Real.pi / 2 := by
    rw [div_lt_div_iff (by norm_num) (by norm_num)]
    nlinarith
  have htan : 0 < Real.tan ((90 + lat) * Real.pi / 360) :=
    Real.tan_pos_of_pos_of_lt_pi_div_two hθ1 hθ2
  have harg : Real.log (Real.tan ((90 + lat) * Real.pi / 360)) / (Real.pi / 180) *
      mercator.originShift / 180 / mercator.originShift * 180 * Real.pi / 180 =
      Real.log (Real.tan ((90 + lat) * Real.pi / 360)) := by
    field_simp
    ring
  rw [Prod.mk.injEq]
  constructor
  · rw [harg, Real.exp_log htan,
      Real.arctan_tan (by linarith) hθ2]
    field_simp
    ring
  · field_simp
    ring

/-- C5: for every coordinate within the spherical-Mercator valid domain
(`|lat| ≤ 85.05112878`), converting lat/lon to spherical-Mercator meters
and back reproduces the original coordinate to within `1e-6` degrees (in
the exact-real model the round trip is exact, so the bound holds). -/
theorem C5_meters_roundtrip (lat lon : ℝ) (h : |lat| ≤ 85.05112878) :
    |(mercator.meters_to_lat_lon (mercator.lat_lon_to_meters lat lon).1
        (mercator.lat_lon_to_meters lat lon).2).1 - lat| ≤ 1 / 1000000 ∧
    |(mercator.meters_to_lat_lon (mercator.lat_lon_to_meters lat lon).1
        (mercator.lat_lon_to_meters lat lon).2).2 - lon| ≤ 1 / 1000000 := by
  rw [abs_le] at h
  have hex := mercator_roundtrip_exact lat lon (by linarith [h.1]) (by linarith [h.2])
  rw [hex]
  norm_num

/-- C5 witness: the origin. -/
theorem C5_meters_roundtrip_witness :
    |(mercator.meters_to_lat_lon (mercator.lat_lon_to_meters 0 0).1
        (mercator.lat_lon_to_meters 0 0).2).1 - 0| ≤ 1 / 1000000 ∧
    |(mercator.meters_to_lat_lon (mercator.lat_lon_to_meters 0 0).1
        (mercator.lat_lon_to_meters 0 0).2).2 - 0| ≤ 1 / 1000000 :=
  C5_meters_roundtrip 0 0 (by rw [abs_zero]; norm_num)

theorem mercator_initialResolution_pos : 0 < mercator.initialResolution := by
  show 0 < 2 * Real.pi * 6378137 / 256
  positivity

theorem mercator_Resolution_pos (z : ℕ) : 0 < mercator.Resolution z := by
  rw [MercatorTiler.Resolution]
  exact div_pos mercator_initialResolution_pos (by positivity)

theorem mercator_Resolution_anti (j k : ℕ) (h : j ≤ k) :
    mercator.Resolution k ≤ mercator.Resolution j := by
  rw [MercatorTiler.Resolution, MercatorTiler.Resolution]
  apply div_le_div_of_nonneg_left (le_of_lt mercator_initialResolution_pos)
    (by positivity)
  exact pow_le_pow_right (by norm_num) h

theorem zoomScan_finds (s : ℝ) (z0 : ℕ) (hlt : mercator.Resolution z0 < s)
    (hskip : ∀ j, j < z0 → s ≤ mercator.Resolution j) :
    ∀ (n i : ℕ), i ≤ z0 → z0 < i + n →
      mercator.zoomScan s i n = some (z0 - 1) := by
  intro n
  induction n with
  | zero =>
    intro i hi hi2
    omega
  | succ n ih =>
    intro i hi hi2
    unfold MercatorTiler.zoomScan
    rcases Nat.lt_or_ge i z0 with hcase | hcase
    · rw [if_neg (not_lt.mpr (hskip i hcase))]
      exact ih (i + 1) hcase (by omega)
    · have hiz : i = z0 := le_antisymm hi hcase
      subst hiz
      rw [if_pos hlt]
      by_cases h0 : i = 0
      · subst h0
        simp
      · simp [h0]

/-- C2 (amended): for every pixel size `s`, when some zoom `z0 ≤ 29` is
the smallest zoom with `resolution(z0) < s`, `ZoomForPixelSize(s)`
returns `z0 - 1` — one LESS than that smallest zoom (clamped at 0 when
`z0 = 0`, "we don't want to scale up"); equivalently the largest zoom
whose resolution is still `≥ s`.  In particular
`ZoomForPixelSize(resolution(5) + ε)` returns 4, not 5. -/
theorem C2_zoom_for_pixel_size (s : ℝ) (z0 : ℕ) (hz : z0 ≤ 29)
    (hlt : mercator.Resolution z0 < s)
    (hge : z0 = 0 ∨ s ≤ mercator.Resolution (z0 - 1)) :
    mercator.ZoomForPixelSize s = some (z0 - 1) := by
  rw [MercatorTiler.ZoomForPixelSize]
  apply zoomScan_finds s z0 hlt _ 30 0 (Nat.zero_le z0) (by omega)
  intro j hj
  rcases hge with h0 | hge
  · omega
  · exact le_trans hge (mercator_Resolution_anti j (z0 - 1) (by omega))

/-- C2 counterexample: with `ε = resolution(5)/2 > 0`, the smallest zoom
whose resolution is below `s = resolution(5) + ε` is 5 (conjuncts 2-3),
but `ZoomForPixelSize` returns `some 4`, not `some 5`. -/
theorem C2_zoom_for_pixel_size_counterexample :
    mercator.ZoomForPixelSize (mercator.Resolution 5 + mercator.Resolution 5 / 2) =
      some 4 ∧
    mercator.Resolution 5 < mercator.Resolution 5 + mercator.Resolution 5 / 2 ∧
    mercator.Resolution 5 + mercator.Resolution 5 / 2 ≤ mercator.Resolution 4 := by
  have hR5 : 0 < mercator.Resolution 5 := mercator_Resolution_pos 5
  have hR45 : mercator.Resolution 4 = 2 * mercator.Resolution 5 := by
    rw [MercatorTiler.Resolution, MercatorTiler.Resolution]
    ring
  have hlt : mercator.Resolution 5 <
      mercator.Resolution 5 + mercator.Resolution 5 / 2 := by linarith
  have hge : mercator.Resolution 5 + mercator.Resolution 5 / 2 ≤
      mercator.Resolution 4 := by rw [hR45]; linarith
  refine ⟨?_, hlt, hge⟩
  rw [MercatorTiler.ZoomForPixelSize]
  exact zoomScan_finds _ 5 hlt
    (fun j hj => le_trans hge (mercator_Resolution_anti j 4 (by omega)))
    30 0 (by omega) (by omega)

/-- C2 witness: the amended theorem at `z0 = 5` with `ε = resolution(5)/2`. -/
theorem C2_zoom_for_pixel_size_witness :
    mercator.ZoomForPixelSize (mercator.Resolution 5 + mercator.Resolution 5 / 2) =
      some 4 := by
  have hR5 : 0 < mercator.Resolution 5 := mercator_Resolution_pos 5
  have hR45 : mercator.Resolution 4 = 2 * mercator.Resolution 5 := by
    rw [MercatorTiler.Resolution, MercatorTiler.Resolution]
    ring
  exact C2_zoom_for_pixel_size _ 5 (by omega) (by linarith)
    (Or.inr (by rw [show (5 : ℕ) - 1 = 4 from rfl, hR45]; linarith))

theorem tan_add_sec (φ : ℝ) (h1 : -(Real.pi / 2) < φ) (h2 : φ < Real.pi / 2) :
    Real.tan φ + 1 / Real.cos φ = Real.tan (Real.pi / 4 + φ / 2) := by
  have hpi := Real.pi_pos
  have hψ1 : 0 < Real.pi / 4 + φ / 2 := by linarith
  have hψ2 : Real.pi / 4 + φ / 2 < Real.pi / 2 := by linarith
  have hsinψ : 0 < Real.sin (Real.pi / 4 + φ / 2) :=
    Real.sin_pos_of_pos_of_lt_pi hψ1 (by linarith)
  have hcosψ : 0 < Real.cos (Real.pi / 4 + φ / 2) :=
    Real.cos_pos_of_mem_Ioo ⟨by linarith, hψ2⟩
  have hcosφ : 0 < Real.cos φ := Real.cos_pos_of_mem_Ioo ⟨h1, h2⟩
  have h2ψ : 2 * (Real.pi / 4 + φ / 2) = φ + Real.pi / 2 := by ring
  have hcos2 : Real.cos (2 * (Real.pi / 4 + φ / 2)) = -Real.sin φ := by
    rw [h2ψ, Real.cos_add_pi_div_two]
  have hsin2 : Real.sin (2 * (Real.pi / 4 + φ / 2)) = Real.cos φ := by
    rw [h2ψ, Real.sin_add_pi_div_two]
  have hcosφ_eq : Real.cos φ =
      2 * Real.sin (Real.pi / 4 + φ / 2) * Real.cos (Real.pi / 4 + φ / 2) := by
    rw [← hsin2, Real.sin_two_mul]
  have hc2m : Real.cos (2 * (Real.pi / 4 + φ / 2)) =
      1 - 2 * Real.sin (Real.pi / 4 + φ / 2) ^ 2 := by
    have ha := Real.cos_two_mul' (Real.pi / 4 + φ / 2)
    have hb := Real.sin_sq_add_cos_sq (Real.pi / 4 + φ / 2)
    linarith
  have hsinφ_eq : Real.sin φ = 2 * Real.sin (Real.pi / 4 + φ / 2) ^ 2 - 1 := by
    have hz := hcos2
    rw [hc2m] at hz
    linarith
  rw [Real.tan_eq_sin_div_cos φ, div_add_div_same,
    Real.tan_eq_sin_div_cos (Real.pi / 4 + φ / 2),
    div_eq_div_iff hcosφ.ne' hcosψ.ne']
  rw [hsinφ_eq, hcosφ_eq]
  ring

theorem log_three_gt : (1.0922 : ℝ) < Real.log 3 := by
  rw [Real.lt_log_iff_exp_lt (by norm_num : (0 : ℝ) < 3)]
  have h1 : Real.exp 1.0922 = Real.exp 1 * Real.exp 0.0922 := by
    rw [← Real.exp_add]
    norm_num
  have h2 : (0.9078 : ℝ) ≤ Real.exp (-0.0922) := by
    have := Real.add_one_le_exp (-0.0922 : ℝ)
    linarith
  have h3 : Real.exp 0.0922 ≤ (0.9078 : ℝ)⁻¹ := by
    rw [show (0.0922 : ℝ) = -(-0.0922) by norm_num, Real.exp_neg]
    exact inv_le_inv_of_le (by norm_num) h2
  have h4 : Real.exp 1 < 2.7182818286 := Real.exp_one_lt_d9
  have h5 : (0 : ℝ) < Real.exp 0.0922 := Real.exp_pos _
  calc Real.exp 1.0922 = Real.exp 1 * Real.exp 0.0922 := h1
    _ < 2.7182818286 * (0.9078 : ℝ)⁻¹ := by nlinarith
    _ < 3 := by norm_num

theorem log_three_lt : Real.log 3 < (1.1044 : ℝ) := by
  rw [Real.log_lt_iff_lt_exp (by norm_num : (0 : ℝ) < 3)]
  have h1 : Real.exp 1.1044 = Real.exp 1 * Real.exp 0.1044 := by
    rw [← Real.exp_add]
    norm_num
  have h2 : (1.1044 : ℝ) ≤ Real.exp 0.1044 := by
    have := Real.add_one_le_exp (0.1044 : ℝ)
    linarith
  have h3 := Real.exp_one_gt_d9
  calc (3 : ℝ) < 2.7182818283 * 1.1044 := by norm_num
    _ ≤ Real.exp 1 * Real.exp 0.1044 := by nlinarith [Real.exp_pos (0.1044 : ℝ)]
    _ = Real.exp 1.1044 := h1.symm

theorem mercator_initialResolution_eq :
    mercator.initialResolution = mercator.originShift / 128 := by
  show 2 * Real.pi * 6378137 / 256 = 2 * Real.pi * 6378137 / 2 / 128
  ring

theorem mercator_tile_eval (lat lon : ℝ) :
    mercator.lat_lon_to_tile lat lon 10 =
      (⌈2 ^ 9 * (lon + 180) / 180⌉ - 1,
       ⌈2 ^ 9 * (1 + Real.log (Real.tan ((90 + lat) * Real.pi / 360)) / Real.pi)⌉
         - 1) := by
  have hpi := Real.pi_ne_zero
  have hS := mercator_originShift_pos
  simp only [MercatorTiler.lat_lon_to_tile, MercatorTiler.meters_to_tile,
    MercatorTiler.meters_to_pixels, MercatorTiler.lat_lon_to_meters,
    MercatorTiler.pixels_to_tile, MercatorTiler.Resolution]
  rw [mercator_initialResolution_eq,
    show mercator.tileSize = 256 from rfl]
  rw [Prod.mk.injEq]
  constructor
  · congr 2
    field_simp
    ring
  · congr 2
    field_simp
    ring

theorem slippy_tile_eval (lat lon : ℝ) (h1 : -90 < lat) (h2 : lat < 90)
    (hm : Real.log (Real.tan (Real.pi / 4 + lat * Real.pi / 360)) ≤ Real.pi)
    (hlon : -180 ≤ lon) :
    slippy.lat_lon_to_tile lat lon 10 =
      (⌊2 ^ 9 * (lon + 180) / 180⌋,
       ⌊2 ^ 9 * (1 - Real.log (Real.tan (Real.pi / 4 + lat * Real.pi / 360)) /
         Real.pi)⌋) := by
  have hpi := Real.pi_pos
  have hr1 : -(Real.pi / 2) < lat * Real.pi / 180 := by nlinarith
  have hr2 : lat * Real.pi / 180 < Real.pi / 2 := by nlinarith
  have hid : Real.tan (lat * Real.pi / 180) + 1 / Real.cos (lat * Real.pi / 180) =
      Real.tan (Real.pi / 4 + lat * Real.pi / 360) := by
    rw [tan_add_sec (lat * Real.pi / 180) hr1 hr2]
    norm_num
    ring_nf
  simp only [SlippyTiler.lat_lon_to_tile, SlippyTiler.lat_lon_to_xy,
    SlippyTiler.lat_lon_to_relative_xy, SlippyTiler.num_tiles, SlippyTiler.sec]
  rw [hid]
  rw [Prod.mk.injEq]
  constructor
  · have hx0 : (0 : ℝ) ≤ 2 ^ 10 * ((lon + 180) / 360) := by
      have hl : (0 : ℝ) ≤ lon + 180 := by linarith
      positivity
    rw [pyIntR, if_pos hx0]
    congr 1
    ring
  · have hy0 : (0 : ℝ) ≤ 2 ^ 10 *
        ((1 - Real.log (Real.tan (Real.pi / 4 + lat * Real.pi / 360)) /
          Real.pi) / 2) := by
      have hdiv : Real.log (Real.tan (Real.pi / 4 + lat * Real.pi / 360)) /
          Real.pi ≤ 1 := by
        rw [div_le_one hpi]
        exact hm
      nlinarith
    rw [pyIntR, if_pos hy0]
    congr 1
    ring

/-- C8 (amended): at zoom 10, for every coordinate in the common domain
of the two pyramids, the x components of `MercatorTiler.lat_lon_to_tile`
and `SlippyTiler.lat_lon_to_tile` agree within ±1 tile — but the raw y
components do NOT: `MercatorTiler` returns a TMS (bottom-origin) row
while `SlippyTiler` returns a top-origin row, and the two y values are
mirror images summing exactly to `2^10 - 1`, so they agree within ±1
only after the convention flip `ty ↦ 2^10 - 1 - ty`. -/
theorem C8_tile_agreement (lat lon : ℝ) (h1 : -90 < lat) (h2 : lat < 90)
    (hm : Real.log (Real.tan (Real.pi / 4 + lat * Real.pi / 360)) ≤ Real.pi)
    (hlon : -180 ≤ lon) :
    |(slippy.lat_lon_to_tile lat lon 10).1 -
      (mercator.lat_lon_to_tile lat lon 10).1| ≤ 1 ∧
    (mercator.lat_lon_to_tile lat lon 10).2 +
      (slippy.lat_lon_to_tile lat lon 10).2 = 2 ^ 10 - 1 := by
  rw [mercator_tile_eval, slippy_tile_eval lat lon h1 h2 hm hlon]
  rw [show (90 + lat) * Real.pi / 360 = Real.pi / 4 + lat * Real.pi / 360 by ring]
  constructor
  · show |⌊2 ^ 9 * (lon + 180) / 180⌋ - (⌈2 ^ 9 * (lon + 180) / 180⌉ - 1)| ≤ 1
    have hc1 := Int.ceil_le_floor_add_one (2 ^ 9 * (lon + 180) / 180 : ℝ)
    have hc2 := Int.floor_le_ceil (2 ^ 9 * (lon + 180) / 180 : ℝ)
    rw [abs_le]
    omega
  · show ⌈2 ^ 9 * (1 + Real.log (Real.tan (Real.pi / 4 + lat * Real.pi / 360)) /
        Real.pi)⌉ - 1 +
      ⌊2 ^ 9 * (1 - Real.log (Real.tan (Real.pi / 4 + lat * Real.pi / 360)) /
        Real.pi)⌋ = 2 ^ 10 - 1
    rw [show (2 : ℝ) ^ 9 * (1 + Real.log (Real.tan (Real.pi / 4 +
          lat * Real.pi / 360)) / Real.pi) =
        2 ^ 9 * (Real.log (Real.tan (Real.pi / 4 + lat * Real.pi / 360)) /
          Real.pi) + ((2 ^ 9 : ℤ) : ℝ) by push_cast; ring]
    rw [show (2 : ℝ) ^ 9 * (1 - Real.log (Real.tan (Real.pi / 4 +
          lat * Real.pi / 360)) / Real.pi) =
        -(2 ^ 9 * (Real.log (Real.tan (Real.pi / 4 + lat * Real.pi / 360)) /
          Real.pi)) + ((2 ^ 9 : ℤ) : ℝ) by push_cast; ring]
    rw [Int.ceil_add_int, Int.floor_add_int, Int.floor_neg]
    omega

/-- C8 counterexample: at `(lat, lon) = (30, 0)`, zoom 10, the Mercator
pyramid returns the TMS tile `(511, 601)` while the slippy pyramid
returns the top-origin tile `(512, 422)`: the y components differ by
179, far outside ±1 (they are convention mirror images: 601 + 422 =
1023). -/
theorem C8_tile_agreement_counterexample :
    mercator.lat_lon_to_tile 30 0 10 = (511, 601) ∧
    slippy.lat_lon_to_tile 30 0 10 = (512, 422) ∧
    ¬(|(422 : ℤ) - 601| ≤ 1) := by
  have hpi := Real.pi_pos
  have hp1 : (3.141592 : ℝ) < Real.pi := Real.pi_gt_d6
  have hp2 : Real.pi < (3.141593 : ℝ) := Real.pi_lt_d6
  have hL1 := log_three_gt
  have hL2 := log_three_lt
  have key1 : (89 : ℝ) * Real.pi < 256 * Real.log 3 := by nlinarith
  have key2 : (256 : ℝ) * Real.log 3 ≤ 90 * Real.pi := by nlinarith
  have hm30 : Real.log (Real.tan (Real.pi / 4 + 30 * Real.pi / 360)) =
      Real.log 3 / 2 := by
    rw [show Real.pi / 4 + 30 * Real.pi / 360 = Real.pi / 3 by ring,
      Real.tan_pi_div_three, Real.log_sqrt (by norm_num : (0 : ℝ) ≤ 3)]
  have h89 : (89 : ℝ) < 256 * (Real.log 3 / Real.pi) := by
    rw [mul_div_assoc'] at *
    rw [lt_div_iff hpi]
    linarith
  have h90 : 256 * (Real.log 3 / Real.pi) ≤ 90 := by
    rw [mul_div_assoc']
    rw [div_le_iff hpi]
    linarith
  refine ⟨?_, ?_, by decide⟩
  · rw [mercator_tile_eval]
    rw [show (90 + (30 : ℝ)) * Real.pi / 360 = Real.pi / 4 + 30 * Real.pi / 360
        by ring, hm30]
    rw [Prod.mk.injEq]
    constructor
    · rw [show (2 : ℝ) ^ 9 * ((0 : ℝ) + 180) / 180 = ((512 : ℤ) : ℝ) by
        push_cast; ring]
      rw [Int.ceil_intCast]
      decide
    · rw [show (2 : ℝ) ^ 9 * (1 + Real.log 3 / 2 / Real.pi) =
          512 + 256 * (Real.log 3 / Real.pi) by
        field_simp
        ring]
      have hc : ⌈(512 : ℝ) + 256 * (Real.log 3 / Real.pi)⌉ = 602 := by
        rw [Int.ceil_eq_iff]
        push_cast
        constructor <;> linarith
      rw [hc]
      decide
  · rw [slippy_tile_eval 30 0 (by norm_num) (by norm_num)
      (by rw [hm30]; linarith) (by norm_num)]
    rw [hm30, Prod.mk.injEq]
    constructor
    · rw [show (2 : ℝ) ^ 9 * ((0 : ℝ) + 180) / 180 = ((512 : ℤ) : ℝ) by
        push_cast; ring]
      rw [Int.floor_intCast]
    · rw [show (2 : ℝ) ^ 9 * (1 - Real.log 3 / 2 / Real.pi) =
          512 - 256 * (Real.log 3 / Real.pi) by
        field_simp
        ring]
      rw [Int.floor_eq_iff]
      push_cast
      constructor <;> linarith

/-- C8 witness: the amended theorem at the origin. -/
theorem C8_tile_agreement_witness :
    |(slippy.lat_lon_to_tile 0 0 10).1 - (mercator.lat_lon_to_tile 0 0 10).1| ≤ 1 ∧
    (mercator.lat_lon_to_tile 0 0 10).2 + (slippy.lat_lon_to_tile 0 0 10).2 =
      2 ^ 10 - 1 :=
  C8_tile_agreement 0 0 (by norm_num) (by norm_num)
    (by
      rw [show Real.pi / 4 + 0 * Real.pi / 360 = Real.pi / 4 by ring,
        Real.tan_pi_div_four, Real.log_one]
      exact Real.pi_pos.le)
    (by norm_num)

end WmtsSpec

